import Mathlib

/-!
Verification of the CER subordinate-CA engine against its specification.

The embedding translates the repository's route handlers
(`src/app/api/crl/generate/route.ts`, the CA `[id]` route with its GET and
DELETE handlers) into total Lean functions over an explicit persistence
state.  External collaborators (the node-forge PEM parser, the PEM-block
regex, the `CAService` CRL generators as seen from the route) are passed in
as function parameters, mirroring the narrow interfaces the code consumes
them through.  Operations whose implementation is not part of the sources
(CertificateIssuer.issue, RevocationManager.revoke, RevocationManager's
service-level generateCRL, SerialAllocator.nextSerial) are modelled from the
specification text and marked as such in their doc comments.
-/

/-- A resolved caller session, as produced by the external identity provider:
the route handlers read `session.user.id`, `session.user.username`,
`session.user.role` and `session.user.permissions`. -/
structure Session where
  userId : String
  username : String
  role : String
  permissions : List String
  deriving DecidableEq, Repr

/-- One AuditLog row as written by `AuditService.log`. -/
structure AuditEntry where
  action : String
  description : String
  userId : String
  username : String
  deriving DecidableEq, Repr

/-- The JSON body accepted by the CRL generation endpoint:
`const { type = 'full', caId } = await request.json()`.  An absent `type`
property is `none`. -/
structure CrlRequestBody where
  type : Option String
  caId : String
  deriving DecidableEq, Repr

/-- Which CRL generator the endpoint dispatched to. -/
inductive CrlKind where
  | full
  | delta
  deriving DecidableEq, Repr

/-- Observable outcome of one run of the CRL generation endpoint: the HTTP
status, the AuditLog rows written during the run, and which generator (full
or delta) was invoked, if any. -/
structure CrlRouteResult where
  status : Nat
  auditLogs : List AuditEntry
  invoked : Option CrlKind
  deriving DecidableEq, Repr

/-- Embedding of the `POST` handler of `src/app/api/crl/generate/route.ts`.
`apiSession` is the (deterministic) result of `getApiSession`, so the
re-fetch inside the `catch` block yields the same value.  `generateCRL` and
`generateDeltaCRL` stand for `CAService.generateCRL` /
`CAService.generateDeltaCRL`; a thrown error is an `Except.error` carrying
the error message.  On success the handler writes one
`AuditLog(CRL_GENERATED)` row; in the `catch` block it re-fetches the
session and, when one is present, writes one `AuditLog(CRL_GENERATED)` row
describing the failure, then returns status 500. -/
def crlGeneratePOST (apiSession : Option Session) (body : CrlRequestBody)
    (generateCRL generateDeltaCRL : String → Except String String) : CrlRouteResult :=
  match apiSession with
  | none => { status := 401, auditLogs := [], invoked := none }
  | some session =>
    if "crl:manage" ∉ session.permissions then
      { status := 403, auditLogs := [], invoked := none }
    else
      let ty := body.type.getD "full"
      let kind : CrlKind := if ty = "delta" then .delta else .full
      let result := if ty = "delta" then generateDeltaCRL body.caId else generateCRL body.caId
      match result with
      | .ok _ =>
        { status := 200,
          auditLogs := [{ action := "CRL_GENERATED",
                          description := if ty = "delta" then "Delta CRL generated successfully"
                                         else "Full CRL generated successfully",
                          userId := session.userId, username := session.username }],
          invoked := some kind }
      | .error msg =>
        { status := 500,
          auditLogs := [{ action := "CRL_GENERATED",
                          description := "CRL generation failed: " ++ msg,
                          userId := session.userId, username := session.username }],
          invoked := some kind }

/-- An authenticated operator session holding the `crl:manage` permission. -/
def crlOperatorSession : Session :=
  { userId := "user-1", username := "alice", role := "OPERATOR",
    permissions := ["certificate:issue", "crl:manage"] }

/-- A request body for a full CRL of CA `ca-1`. -/
def crlFullBody : CrlRequestBody := { type := none, caId := "ca-1" }

/-- Claim C1, counterexample: an authenticated, authorized run in which
`CAService.generateCRL` throws is a failed run (status 500), yet it writes
one AuditLog row with action `CRL_GENERATED` — the claim says a failed run
writes zero AuditLog rows. -/
theorem c1Counterexample :
    (crlGeneratePOST (some crlOperatorSession) crlFullBody
        (fun _ => .error "signing key unavailable")
        (fun _ => .error "signing key unavailable")).status = 500 ∧
    (crlGeneratePOST (some crlOperatorSession) crlFullBody
        (fun _ => .error "signing key unavailable")
        (fun _ => .error "signing key unavailable")).auditLogs =
      [{ action := "CRL_GENERATED",
         description := "CRL generation failed: signing key unavailable",
         userId := "user-1", username := "alice" }] := by
  constructor <;> rfl

/-- Claim C1 (amended): every successful run of the CRL generation endpoint
writes exactly one AuditLog row with action `CRL_GENERATED`, and every run
that fails during generation (status 500) also writes exactly one such row
recording the failure; only runs rejected as unauthenticated (401) or
unauthorized (403) write zero AuditLog rows. -/
theorem c1AuditRows (apiSession : Option Session) (body : CrlRequestBody)
    (generateCRL generateDeltaCRL : String → Except String String) :
    (crlGeneratePOST apiSession body generateCRL generateDeltaCRL).auditLogs.map AuditEntry.action =
      (if (crlGeneratePOST apiSession body generateCRL generateDeltaCRL).status = 401 ∨
          (crlGeneratePOST apiSession body generateCRL generateDeltaCRL).status = 403
       then [] else ["CRL_GENERATED"]) := by
  match apiSession with
  | none => simp [crlGeneratePOST]
  | some session =>
    by_cases hperm : "crl:manage" ∈ session.permissions
    · cases hr : (if body.type.getD "full" = "delta" then generateDeltaCRL body.caId
                  else generateCRL body.caId) with
      | ok v => simp [crlGeneratePOST, hperm, hr]
      | error m => simp [crlGeneratePOST, hperm, hr]
    · simp [crlGeneratePOST, hperm]

/-- Claim C9: for an authenticated, authorized request, the endpoint invokes
the delta-CRL generator exactly when the body's `type` field is the string
`"delta"`; an omitted `type` or any other value invokes the full-CRL
generator. -/
theorem c9TypeDispatch (session : Session) (body : CrlRequestBody)
    (generateCRL generateDeltaCRL : String → Except String String) :
    (crlGeneratePOST (some session) body generateCRL generateDeltaCRL).invoked =
      (if session.permissions.contains "crl:manage" then
        some (if body.type = some "delta" then CrlKind.delta else CrlKind.full)
       else none) := by
  by_cases hperm : "crl:manage" ∈ session.permissions
  · have hty : (body.type.getD "full" = "delta") ↔ (body.type = some "delta") := by
      cases body.type <;> simp
    by_cases hdelta : body.type = some "delta" <;>
      rcases hr : (if body.type.getD "full" = "delta" then generateDeltaCRL body.caId
                   else generateCRL body.caId) with v | m <;>
      simp_all [crlGeneratePOST]
  · simp [crlGeneratePOST, hperm]

/-- One CAConfig row.  `privateKey` is the AES-encrypted CA private key
stored at rest; `certificate` and `certificateChain` are PEM strings
(`none` for a SQL NULL). -/
structure CAConfig where
  id : String
  name : String
  subjectDN : String
  status : String
  keyAlgorithm : String
  keySize : Option Nat
  curve : Option String
  validFrom : Nat
  validTo : Nat
  crlNumber : Nat
  crlDistributionPoint : Option String
  ocspUrl : Option String
  certificate : Option String
  certificateChain : Option String
  privateKey : String
  deriving DecidableEq, Repr

/-- One Certificate row. -/
structure Certificate where
  id : String
  serialNumber : String
  commonName : String
  subjectAltNames : List String
  caId : String
  status : String
  issuedById : String
  deriving DecidableEq, Repr

/-- One CertificateRevocation row. -/
structure CertificateRevocation where
  certificateId : String
  reason : String
  revokedById : String
  deriving DecidableEq, Repr

/-- One entry of a persisted CRL. -/
structure CRLEntry where
  serialNumber : String
  reason : String
  deriving DecidableEq, Repr

/-- One persisted CRL row. -/
structure CRLRow where
  caId : String
  number : Nat
  entries : List CRLEntry
  deriving DecidableEq, Repr

/-- JavaScript truthiness of an optional string column: `null` and the empty
string are falsy, as in `if (ca.certificate)` and `!!ca.certificate`. -/
def truthyStr (s : Option String) : Bool :=
  match s with
  | none => false
  | some v => !v.isEmpty

/-- What `forge.pki.certificateFromPem` exposes of a parsed certificate, with
the handler's `|| null` normalisations already applied: `subjectCN` models
`cert.subject.getField('CN')?.value || null` (so an absent or empty CN is
`none`), likewise `issuerCN`, and `publicKeyType` models
`cert.publicKey?.type || null`.  Validity bounds are epoch timestamps. -/
structure ForgeCert where
  subjectCN : Option String
  issuerCN : Option String
  notBefore : Nat
  notAfter : Nat
  publicKeyType : Option String
  deriving DecidableEq, Repr

/-- The `certificateInfo` object the GET handler derives from the parsed CA
certificate.  `selfSigned` follows the JavaScript expression
`subjectCN && issuerCN && subjectCN === issuerCN`: it is `none` (null) when
either CN is null and a boolean otherwise. -/
structure CertInfo where
  subjectCN : Option String
  issuerCN : Option String
  selfSigned : Option Bool
  notBefore : Nat
  notAfter : Nat
  publicKeyType : Option String
  deriving DecidableEq, Repr

/-- Builds the `certInfo` object of the GET handler from a parsed certificate. -/
def mkCertInfo (c : ForgeCert) : CertInfo :=
  { subjectCN := c.subjectCN, issuerCN := c.issuerCN,
    selfSigned :=
      match c.subjectCN, c.issuerCN with
      | some s, some i => some (s == i)
      | _, _ => none,
    notBefore := c.notBefore, notAfter := c.notAfter,
    publicKeyType := c.publicKeyType }

/-- One entry of the GET handler's `certificateChainInfo.entries`. -/
structure ChainEntry where
  subjectCN : Option String
  issuerCN : Option String
  notBefore : Nat
  notAfter : Nat
  deriving DecidableEq, Repr

/-- The `certificateChainInfo` object of the GET handler. -/
structure ChainInfo where
  count : Nat
  entries : List ChainEntry
  rootCN : Option String
  deriving DecidableEq, Repr

/-- Builds the handler's `chainInfo`: each PEM block is parsed best-effort
(`try ... catch { return null }`), nulls are dropped by `.filter(Boolean)`,
the root is the last surviving entry, and
`rootCN = root?.issuerCN || root?.subjectCN || null`. -/
def mkChainInfo (parseCert : String → Option ForgeCert) (blocks : List String) : ChainInfo :=
  let parsed := blocks.filterMap (fun b =>
    (parseCert b).map (fun c =>
      ({ subjectCN := c.subjectCN, issuerCN := c.issuerCN,
         notBefore := c.notBefore, notAfter := c.notAfter } : ChainEntry)))
  { count := parsed.length, entries := parsed,
    rootCN :=
      match parsed.getLast? with
      | none => none
      | some root =>
        match root.issuerCN with
        | some x => some x
        | none => root.subjectCN }

/-- The JSON payload returned by the CA-details GET handler on success: the
enumerated metadata fields, presence booleans, and derived certificate
info — the field list is exactly the object literal of the source. -/
structure CADetailsResponse where
  id : String
  name : String
  subjectDN : String
  status : String
  keyAlgorithm : String
  keySize : Option Nat
  curve : Option String
  validFrom : Nat
  validTo : Nat
  crlNumber : Nat
  crlDistributionPoint : Option String
  ocspUrl : Option String
  hasCertificate : Bool
  hasCertificateChain : Bool
  certificateInfo : Option CertInfo
  certificateChainInfo : Option ChainInfo
  deriving DecidableEq, Repr

/-- Builds the GET handler's success payload for a CA row.  `parseCert`
stands for `forge.pki.certificateFromPem` (`none` models a throw, swallowed
by the handler's empty `catch`), `pemBlocks` for the PEM-block regex match
(`match(...) || []`). -/
def buildCAResponse (ca : CAConfig) (parseCert : String → Option ForgeCert)
    (pemBlocks : String → List String) : CADetailsResponse :=
  let certInfo : Option CertInfo :=
    match ca.certificate with
    | some pem => if pem.isEmpty then none else (parseCert pem).map mkCertInfo
    | none => none
  let chainInfo : Option ChainInfo :=
    match ca.certificateChain with
    | some chain => if chain.isEmpty then none else some (mkChainInfo parseCert (pemBlocks chain))
    | none => none
  { id := ca.id, name := ca.name, subjectDN := ca.subjectDN, status := ca.status,
    keyAlgorithm := ca.keyAlgorithm, keySize := ca.keySize, curve := ca.curve,
    validFrom := ca.validFrom, validTo := ca.validTo, crlNumber := ca.crlNumber,
    crlDistributionPoint := ca.crlDistributionPoint, ocspUrl := ca.ocspUrl,
    hasCertificate := truthyStr ca.certificate,
    hasCertificateChain := truthyStr ca.certificateChain,
    certificateInfo := certInfo, certificateChainInfo := chainInfo }

/-- Outcome of the CA-details GET handler. -/
inductive CaGetResult where
  | unauthorized
  | badRequest
  | notFound
  | ok (payload : CADetailsResponse)
  deriving DecidableEq, Repr

/-- Embedding of the `GET` handler of the CA `[id]` route: 401 without a
session, 400 for an empty id, 404 when `db.cAConfig.findUnique` yields no
row, otherwise the enumerated payload. -/
def caGET (session : Option Session) (caId : String) (cas : List CAConfig)
    (parseCert : String → Option ForgeCert) (pemBlocks : String → List String) : CaGetResult :=
  match session with
  | none => .unauthorized
  | some _ =>
    if caId.isEmpty then .badRequest
    else
      match cas.find? (fun c => c.id == caId) with
      | none => .notFound
      | some ca => .ok (buildCAResponse ca parseCert pemBlocks)

/-- Replacing every CA's stored private key leaves `findUnique` (by id)
unchanged up to the same replacement. -/
theorem find_rekey (caId : String) (rekey : String → String) (cas : List CAConfig) :
    (cas.map (fun c => { c with privateKey := rekey c.privateKey })).find? (fun c => c.id == caId) =
      (cas.find? (fun c => c.id == caId)).map (fun c => { c with privateKey := rekey c.privateKey }) := by
  induction cas with
  | nil => rfl
  | cons head tail ih =>
    cases h : head.id == caId with
    | true => simp [List.find?_cons, h]
    | false => simp [List.find?_cons, h, ih]

/-- Claim C10: the CA-details GET response is independent of the stored
private key — rewriting every CA's `privateKey` column by an arbitrary
function leaves the whole GET response unchanged, so the payload (which
enumerates only metadata fields) never carries the private key, encrypted
or decrypted. -/
theorem c10PrivateKeyIndependence (rekey : String → String) (session : Option Session)
    (caId : String) (cas : List CAConfig)
    (parseCert : String → Option ForgeCert) (pemBlocks : String → List String) :
    caGET session caId (cas.map (fun c => { c with privateKey := rekey c.privateKey }))
        parseCert pemBlocks =
      caGET session caId cas parseCert pemBlocks := by
  cases session with
  | none => rfl
  | some s =>
    unfold caGET
    cases hid : caId.isEmpty with
    | true => simp [hid]
    | false =>
      simp only [hid, Bool.false_eq_true, if_false]
      rw [find_rekey]
      cases hf : cas.find? (fun c => c.id == caId) with
      | none => rfl
      | some ca => rfl

/-- A CA row whose stored certificate PEM is present but malformed. -/
def parseFailCA : CAConfig :=
  { id := "ca-7", name := "Ops CA", subjectDN := "CN=Ops CA", status := "ACTIVE",
    keyAlgorithm := "RSA", keySize := some 4096, curve := none,
    validFrom := 1700000000, validTo := 2000000000, crlNumber := 3,
    crlDistributionPoint := some "https://pki.example.com/crl",
    ocspUrl := some "https://pki.example.com/ocsp",
    certificate := some "-----BEGIN CERTIFICATE-----;GARBAGE;-----END CERTIFICATE-----",
    certificateChain := none, privateKey := "enc-key-bytes" }

/-- An authenticated viewer session for the CA-details GET handler. -/
def caViewerSession : Session :=
  { userId := "user-9", username := "viewer", role := "VIEWER",
    permissions := ["certificate:view"] }

/-- Claim C7, counterexample: the CA stores a certificate (the payload says
`hasCertificate = true`), `forge.pki.certificateFromPem` throws on it, and
the handler still answers 200 with `certificateInfo = null` — a silent null
in place of the parsed data.  The payload type, taken verbatim from the
source's object literal, has no field that could distinguish a parse
failure or carry its reason. -/
theorem c7Counterexample :
    caGET (some caViewerSession) "ca-7" [parseFailCA] (fun _ => none) (fun _ => []) =
      .ok { id := "ca-7", name := "Ops CA", subjectDN := "CN=Ops CA", status := "ACTIVE",
            keyAlgorithm := "RSA", keySize := some 4096, curve := none,
            validFrom := 1700000000, validTo := 2000000000, crlNumber := 3,
            crlDistributionPoint := some "https://pki.example.com/crl",
            ocspUrl := some "https://pki.example.com/ocsp",
            hasCertificate := true, hasCertificateChain := false,
            certificateInfo := none, certificateChainInfo := none } := by
  rfl

/-- Claim C7 (amended): when the stored CA certificate is present but fails
to parse, the GET handler swallows the error and answers 200 with
`certificateInfo = null` (and `hasCertificate = true`), rather than an
explicit parse-failure result carrying a reason. -/
theorem c7SilentNullOnParseFailure (session : Session) (caId : String) (cas : List CAConfig)
    (parseCert : String → Option ForgeCert) (pemBlocks : String → List String)
    (ca : CAConfig) (pem : String)
    (hid : caId.isEmpty = false)
    (hfind : cas.find? (fun c => c.id == caId) = some ca)
    (hcert : ca.certificate = some pem)
    (hne : pem.isEmpty = false)
    (hparse : parseCert pem = none) :
    caGET (some session) caId cas parseCert pemBlocks =
        .ok (buildCAResponse ca parseCert pemBlocks) ∧
    (buildCAResponse ca parseCert pemBlocks).certificateInfo = none ∧
    (buildCAResponse ca parseCert pemBlocks).hasCertificate = true := by
  refine ⟨?_, ?_, ?_⟩
  · simp [caGET, hid, hfind]
  · simp [buildCAResponse, hcert, hne, hparse]
  · simp [buildCAResponse, truthyStr, hcert, hne]

/-- Claim C7, witness for the amended theorem at a concrete CA and a parser
that rejects every input. -/
theorem c7SilentNullWitness :
    (("ca-7" : String).isEmpty = false ∧
     [parseFailCA].find? (fun c => c.id == "ca-7") = some parseFailCA ∧
     parseFailCA.certificate =
       some "-----BEGIN CERTIFICATE-----;GARBAGE;-----END CERTIFICATE-----" ∧
     ("-----BEGIN CERTIFICATE-----;GARBAGE;-----END CERTIFICATE-----" : String).isEmpty = false ∧
     (fun (_ : String) => (none : Option ForgeCert))
         "-----BEGIN CERTIFICATE-----;GARBAGE;-----END CERTIFICATE-----" = none) ∧
    (caGET (some caViewerSession) "ca-7" [parseFailCA] (fun _ => none) (fun _ => []) =
        .ok (buildCAResponse parseFailCA (fun _ => none) (fun _ => [])) ∧
     (buildCAResponse parseFailCA (fun _ => none) (fun _ => [])).certificateInfo = none ∧
     (buildCAResponse parseFailCA (fun _ => none) (fun _ => [])).hasCertificate = true) :=
  ⟨⟨rfl, rfl, rfl, rfl, rfl⟩,
   c7SilentNullOnParseFailure caViewerSession "ca-7" [parseFailCA] (fun _ => none) (fun _ => [])
     parseFailCA "-----BEGIN CERTIFICATE-----;GARBAGE;-----END CERTIFICATE-----"
     rfl rfl rfl rfl rfl⟩

/-- Modelled from the spec: the SerialAllocator state (§4.2), whose
implementation is not under src/.  The spec mandates serialized single-writer
allocation per CA ("e.g. via an atomic counter"), so the allocator is one
atomic counter per CA id; any interleaving of concurrent callers is some
serialization order, i.e. some request list fed through this state. -/
structure SerialAlloc where
  counters : List (String × Nat)
  deriving DecidableEq, Repr

/-- The current counter of a CA (0 before the first allocation). -/
def counterOf (a : SerialAlloc) (caId : String) : Nat :=
  match a.counters.find? (fun p => p.1 == caId) with
  | some p => p.2
  | none => 0

/-- Modelled from the spec: `nextSerial(caId) -> SerialNumber` (§4.2) —
atomically returns the CA's counter and increments it. -/
def nextSerial (caId : String) (a : SerialAlloc) : Nat × SerialAlloc :=
  let n := counterOf a caId
  (n, ⟨(caId, n + 1) :: a.counters.filter (fun p => !(p.1 == caId))⟩)

/-- Dropping the pairs of one CA does not change lookups for another CA. -/
theorem find_filter_other (l : List (String × Nat)) (x c : String) (hx : (x == c) = false) :
    (l.filter (fun p => !(p.1 == c))).find? (fun p => p.1 == x) =
      l.find? (fun p => p.1 == x) := by
  induction l with
  | nil => rfl
  | cons head tail ih =>
    cases hc : head.1 == c with
    | true =>
      have hhx : (head.1 == x) = false := by
        have h1 : head.1 = c := by simpa using hc
        simp [h1]
        intro h2
        exact absurd (by simpa using hx) (by simp [h2])
      simp [List.filter_cons, List.find?_cons, hc, hhx, ih]
    | false => simp [List.filter_cons, List.find?_cons, hc, ih]

/-- A `nextSerial` call returns the CA's counter, bumps that counter by one
and leaves every other CA's counter unchanged. -/
theorem counterOf_nextSerial (c x : String) (a : SerialAlloc) :
    (nextSerial c a).1 = counterOf a c ∧
    counterOf (nextSerial c a).2 x = (if x = c then counterOf a c + 1 else counterOf a x) := by
  refine ⟨rfl, ?_⟩
  by_cases hxc : x = c
  · subst hxc
    simp [nextSerial, counterOf, List.find?_cons]
  · have hbeq : (c == x) = false := by simpa using fun h => hxc h.symm
    have hbeq2 : (x == c) = false := by simpa using hxc
    simp only [nextSerial, counterOf, List.find?_cons, hbeq, if_neg hxc]
    rw [find_filter_other a.counters x c hbeq2]

/-- Feeds a serialization order of allocation requests (one CA id per
request) through the allocator, collecting each request's serial. -/
def runAllocs : List String → SerialAlloc → List (String × Nat) × SerialAlloc
  | [], a => ([], a)
  | c :: cs, a =>
    let r := nextSerial c a
    let rest := runAllocs cs r.2
    ((c, r.1) :: rest.1, rest.2)

/-- The serials handed out for one CA during a run, in order. -/
def serialsFor (caId : String) (reqs : List String) (a : SerialAlloc) : List Nat :=
  ((runAllocs reqs a).1.filter (fun p => p.1 == caId)).map (fun p => p.2)

/-- The serials a run hands out for a CA are exactly the consecutive range
starting at that CA's current counter. -/
theorem serialsFor_eq_range (caId : String) (reqs : List String) (a : SerialAlloc) :
    serialsFor caId reqs a = List.range' (counterOf a caId) (reqs.count caId) := by
  induction reqs generalizing a with
  | nil => rfl
  | cons c cs ih =>
    by_cases hc : c = caId
    · subst hc
      have h2 : counterOf (nextSerial c a).2 c = counterOf a c + 1 := by
        simpa using (counterOf_nextSerial c c a).2
      have hrest := ih (nextSerial c a).2
      simp only [serialsFor] at hrest ⊢
      simp only [runAllocs, List.filter_cons, beq_self_eq_true, if_true, List.map_cons,
        List.count_cons_self]
      rw [List.range'_succ]
      exact congrArg₂ List.cons rfl (by rw [hrest, h2])
    · have h2 : counterOf (nextSerial c a).2 caId = counterOf a caId := by
        have h3 := (counterOf_nextSerial c caId a).2
        rwa [if_neg (fun h => hc h.symm)] at h3
      have hbeq : (c == caId) = false := by simpa using hc
      have hrest := ih (nextSerial c a).2
      simp only [serialsFor] at hrest ⊢
      simp only [runAllocs, List.filter_cons, hbeq, Bool.false_eq_true, if_false,
        List.count_cons, beq_iff_eq]
      rw [hrest, h2]
      have hne : caId ≠ c := fun h => hc h.symm
      simp [hne]

/-- Claim C8: under the spec's serialized allocation policy, any
serialization of N concurrent `nextSerial` calls hands out pairwise
distinct serials per CA — for every request order, every starting allocator
state and every CA, the serials allocated to that CA have no duplicates,
and N requests for the CA yield N serials. -/
theorem c8SerialsDistinct (reqs : List String) (a : SerialAlloc) (caId : String) :
    (serialsFor caId reqs a).Nodup ∧ (serialsFor caId reqs a).length = reqs.count caId := by
  rw [serialsFor_eq_range]
  exact ⟨List.nodup_range' _ _, List.length_range' _ _ _⟩

/-- The transactional store: one list per entity type, plus the serial
allocator state. -/
structure DbState where
  cas : List CAConfig
  certificates : List Certificate
  revocations : List CertificateRevocation
  crls : List CRLRow
  auditLogs : List AuditEntry
  serialAlloc : SerialAlloc
  deriving DecidableEq, Repr

/-- The acting identity recorded on created rows and audit entries. -/
structure UserRef where
  id : String
  username : String
  deriving DecidableEq, Repr

/-- The enumerated revocation reasons (§6). -/
def revocationReasons : List String :=
  ["UNSPECIFIED", "KEY_COMPROMISE", "CA_COMPROMISE", "AFFILIATION_CHANGED",
   "SUPERSEDED", "CESSATION_OF_OPERATION", "CERTIFICATE_HOLD"]

/-- Result of `RevocationManager.revoke`. -/
inductive RevokeOutcome where
  | invalidReason
  | notFound
  | alreadyRevoked
  | revoked
  deriving DecidableEq, Repr

/-- Modelled from the spec: `RevocationManager.revoke` (§4.3), whose
implementation is not under src/ (only its integration tests are).
The reason must be one of the enumerated revocation reasons, checked before
any write; an unknown certificate is `NotFoundError`; re-revoking an
already-REVOKED certificate is `AlreadyRevokedError` with no write (the
policy §4.3 fixes); on success the CertificateRevocation row, the status
transition to REVOKED and the `AuditLog(CERTIFICATE_REVOKED)` row commit as
one atomic unit. -/
def revoke (user : UserRef) (certificateId reason : String) (db : DbState) :
    RevokeOutcome × DbState :=
  if revocationReasons.contains reason then
    match db.certificates.find? (fun c => c.id == certificateId) with
    | none => (.notFound, db)
    | some cert =>
      if cert.status = "REVOKED" then (.alreadyRevoked, db)
      else
        (.revoked,
          { db with
            certificates := db.certificates.map (fun c =>
              if c.id == certificateId then { c with status := "REVOKED" } else c),
            revocations := db.revocations ++
              [{ certificateId := certificateId, reason := reason, revokedById := user.id }],
            auditLogs := db.auditLogs ++
              [{ action := "CERTIFICATE_REVOKED",
                 description := "Certificate revoked: " ++ cert.commonName,
                 userId := user.id, username := user.username }] })
  else (.invalidReason, db)

/-- Claim C2: revoking a certificate whose stored status is already REVOKED
fails with AlreadyRevokedError and performs no write — the store (its
CertificateRevocation rows, AuditLog rows and the stored revocation
reason) is returned unchanged. -/
theorem c2AlreadyRevoked (user : UserRef) (certificateId reason : String) (db : DbState)
    (cert : Certificate)
    (hfind : db.certificates.find? (fun c => c.id == certificateId) = some cert)
    (hrev : cert.status = "REVOKED")
    (hreason : revocationReasons.contains reason = true) :
    revoke user certificateId reason db = (.alreadyRevoked, db) := by
  have hmem : reason ∈ revocationReasons := by simpa using hreason
  simp [revoke, hfind, hrev, hmem]

/-- An already-revoked certificate row. -/
def revokedCert : Certificate :=
  { id := "cert-2", serialNumber := "02", commonName := "revoked.example.com",
    subjectAltNames := ["revoked.example.com"], caId := "ca-1",
    status := "REVOKED", issuedById := "user-1" }

/-- A store holding the already-revoked certificate and its revocation row. -/
def revokedDb : DbState :=
  { cas := [], certificates := [revokedCert],
    revocations := [{ certificateId := "cert-2", reason := "UNSPECIFIED",
                      revokedById := "user-1" }],
    crls := [], auditLogs := [], serialAlloc := ⟨[]⟩ }

/-- Claim C2, witness: a second revocation of the already-revoked concrete
certificate, with a different valid reason, fails with AlreadyRevokedError
and leaves the store untouched. -/
theorem c2AlreadyRevokedWitness :
    (revokedDb.certificates.find? (fun c => c.id == "cert-2") = some revokedCert ∧
     revokedCert.status = "REVOKED" ∧
     revocationReasons.contains "KEY_COMPROMISE" = true) ∧
    revoke ⟨"user-1", "alice"⟩ "cert-2" "KEY_COMPROMISE" revokedDb =
      (.alreadyRevoked, revokedDb) :=
  ⟨⟨rfl, rfl, rfl⟩,
   c2AlreadyRevoked ⟨"user-1", "alice"⟩ "cert-2" "KEY_COMPROMISE" revokedDb revokedCert
     rfl rfl rfl⟩

/-- Claim C4: revoking a certificateId that matches no Certificate row
performs no write, and — when the supplied reason is one of the enumerated
ones, so that the earlier reason check does not fire first — fails with
NotFoundError. -/
theorem c4RevokeNotFound (user : UserRef) (certificateId reason : String) (db : DbState)
    (hfind : db.certificates.find? (fun c => c.id == certificateId) = none) :
    (revoke user certificateId reason db).2 = db ∧
    (revocationReasons.contains reason = true →
      revoke user certificateId reason db = (.notFound, db)) := by
  constructor
  · by_cases hmem : reason ∈ revocationReasons
    · simp [revoke, hfind, hmem]
    · simp [revoke, hmem]
  · intro hreason
    have hmem : reason ∈ revocationReasons := by simpa using hreason
    simp [revoke, hfind, hmem]

/-- Claim C4, witness: revoking the unknown id `does-not-exist` against the
concrete store fails with NotFoundError and creates no row. -/
theorem c4RevokeNotFoundWitness :
    revokedDb.certificates.find? (fun c => c.id == "does-not-exist") = none ∧
    ((revoke ⟨"user-1", "alice"⟩ "does-not-exist" "UNSPECIFIED" revokedDb).2 = revokedDb ∧
     (revocationReasons.contains "UNSPECIFIED" = true →
       revoke ⟨"user-1", "alice"⟩ "does-not-exist" "UNSPECIFIED" revokedDb =
         (.notFound, revokedDb))) :=
  ⟨rfl, c4RevokeNotFound ⟨"user-1", "alice"⟩ "does-not-exist" "UNSPECIFIED" revokedDb rfl⟩

/-- The allowed key algorithms (§4.1). -/
def keyAlgorithms : List String := ["RSA", "ECDSA", "Ed25519"]

/-- The allowed certificate types (§4.1). -/
def certificateTypes : List String := ["SERVER", "CLIENT", "CA"]

/-- An issuance request (§4.1). -/
structure IssueRequest where
  commonName : String
  subjectAltNames : List String
  keyAlgorithm : String
  certificateType : String
  validityDays : Int
  deriving DecidableEq, Repr

/-- Result of `CertificateIssuer.issue`. -/
inductive IssueOutcome where
  | validationError (message : String)
  | caUnavailable
  | issued (serialNumber : String)
  deriving DecidableEq, Repr

/-- Modelled from the spec: `CertificateIssuer.issue` (§4.1), whose
implementation is not under src/ (only its integration tests are).
Inputs are validated fail-fast — commonName non-empty first, then SAN
syntax (the syntactic DNS/IP/wildcard predicate is the external `sanValid`
oracle), key algorithm, certificate type and validityDays positivity —
each failure yielding a ValidationError before any write.  The target CA
must exist and be ACTIVE, else CAUnavailableError.  On success a serial is
drawn from the SerialAllocator and the Certificate row plus the
`AuditLog(CERTIFICATE_ISSUED)` row commit atomically.  Clock-dependent
checks (the CA's remaining validity window) and the crypto steps, which
produce no entity writes, are outside this state model. -/
def issue (user : UserRef) (caId : String) (req : IssueRequest)
    (sanValid : String → Bool) (db : DbState) : IssueOutcome × DbState :=
  if req.commonName = "" then
    (.validationError "commonName must be non-empty", db)
  else if !(req.subjectAltNames.all sanValid) then
    (.validationError "invalid subjectAltName", db)
  else if req.keyAlgorithm ∉ keyAlgorithms then
    (.validationError "invalid keyAlgorithm", db)
  else if req.certificateType ∉ certificateTypes then
    (.validationError "invalid certificateType", db)
  else if req.validityDays ≤ 0 then
    (.validationError "validityDays must be a positive integer", db)
  else
    match db.cas.find? (fun c => c.id == caId) with
    | none => (.caUnavailable, db)
    | some ca =>
      if ca.status ≠ "ACTIVE" then (.caUnavailable, db)
      else
        let alloc := nextSerial caId db.serialAlloc
        let sn := toString alloc.1
        (.issued sn,
          { db with
            certificates := db.certificates ++
              [{ id := "cert-" ++ caId ++ "-" ++ sn, serialNumber := sn,
                 commonName := req.commonName, subjectAltNames := req.subjectAltNames,
                 caId := caId, status := "ACTIVE", issuedById := user.id }],
            auditLogs := db.auditLogs ++
              [{ action := "CERTIFICATE_ISSUED",
                 description := "Certificate issued: " ++ req.commonName,
                 userId := user.id, username := user.username }],
            serialAlloc := alloc.2 })

/-- Claim C5: an issuance request whose commonName is the empty string fails
with a ValidationError and leaves the store unchanged — in particular no
Certificate row and no CERTIFICATE_ISSUED AuditLog row is created. -/
theorem c5EmptyCommonName (user : UserRef) (caId : String) (req : IssueRequest)
    (sanValid : String → Bool) (db : DbState)
    (hcn : req.commonName = "") :
    issue user caId req sanValid db = (.validationError "commonName must be non-empty", db) := by
  simp [issue, hcn]

/-- Claim C5, witness: issuing with an empty commonName against the concrete
store fails with the ValidationError and creates nothing. -/
theorem c5EmptyCommonNameWitness :
    ({ commonName := "", subjectAltNames := [], keyAlgorithm := "RSA",
       certificateType := "SERVER", validityDays := 365 } : IssueRequest).commonName = "" ∧
    issue ⟨"user-1", "alice"⟩ "ca-1"
        { commonName := "", subjectAltNames := [], keyAlgorithm := "RSA",
          certificateType := "SERVER", validityDays := 365 }
        (fun _ => true) revokedDb =
      (.validationError "commonName must be non-empty", revokedDb) :=
  ⟨rfl,
   c5EmptyCommonName ⟨"user-1", "alice"⟩ "ca-1"
     { commonName := "", subjectAltNames := [], keyAlgorithm := "RSA",
       certificateType := "SERVER", validityDays := 365 }
     (fun _ => true) revokedDb rfl⟩

/-- Embedding of the `DELETE` handler of the CA `[id]` route.  A missing
session or a role other than ADMIN is rejected with 401
(`if (!session || session.user.role !== 'ADMIN')`); an empty id is 400.
The transaction deletes the revocations of the CA's certificates, the CA's
certificates, the CA's CRLs and the CAConfig row itself; Prisma's `delete`
throws when the CAConfig row does not exist, rolling the whole transaction
back, which the `catch` turns into a 500 with no rows changed.  On success
one `AuditLog(CA_DELETED)` row is written. -/
def caDELETE (session : Option Session) (caId : String) (db : DbState) : Nat × DbState :=
  match session with
  | none => (401, db)
  | some s =>
    if s.role ≠ "ADMIN" then (401, db)
    else if caId.isEmpty then (400, db)
    else
      match db.cas.find? (fun c => c.id == caId) with
      | none => (500, db)
      | some _ =>
        (200,
          { db with
            revocations := db.revocations.filter (fun r =>
              !(db.certificates.any (fun c => c.id == r.certificateId && c.caId == caId))),
            certificates := db.certificates.filter (fun c => !(c.caId == caId)),
            crls := db.crls.filter (fun x => !(x.caId == caId)),
            cas := db.cas.filter (fun c => !(c.id == caId)),
            auditLogs := db.auditLogs ++
              [{ action := "CA_DELETED", description := "CA deleted: " ++ caId,
                 userId := s.userId, username := s.username }] })

/-- Claim C6: a CA deletion request by a caller whose role is not ADMIN is
rejected with the authorization status 401, and the store is returned
unchanged — no CAConfig, Certificate, CertificateRevocation or CRL row is
deleted. -/
theorem c6DeleteRequiresAdmin (s : Session) (caId : String) (db : DbState)
    (hrole : s.role ≠ "ADMIN") :
    caDELETE (some s) caId db = (401, db) := by
  simp [caDELETE, hrole]

/-- An OPERATOR session (not ADMIN). -/
def operatorSession : Session :=
  { userId := "user-3", username := "bob", role := "OPERATOR",
    permissions := ["certificate:issue", "certificate:revoke"] }

/-- A CA row used by the deletion fixtures. -/
def fixtureCA : CAConfig :=
  { id := "ca-1", name := "Dev CA", subjectDN := "CN=Dev CA", status := "ACTIVE",
    keyAlgorithm := "RSA", keySize := some 4096, curve := none,
    validFrom := 1700000000, validTo := 2000000000, crlNumber := 1,
    crlDistributionPoint := none, ocspUrl := none,
    certificate := some "PEM", certificateChain := none, privateKey := "enc" }

/-- An active certificate of `ca-1`. -/
def fixtureCert : Certificate :=
  { id := "cert-1", serialNumber := "01", commonName := "host.example.com",
    subjectAltNames := ["host.example.com"], caId := "ca-1",
    status := "ACTIVE", issuedById := "user-1" }

/-- A store holding `ca-1`, its certificate and one CRL row. -/
def fixtureDb : DbState :=
  { cas := [fixtureCA], certificates := [fixtureCert],
    revocations := [], crls := [{ caId := "ca-1", number := 1, entries := [] }],
    auditLogs := [], serialAlloc := ⟨[("ca-1", 2)]⟩ }

/-- Claim C6, witness: an OPERATOR's deletion request against the concrete
store is answered with 401 and deletes nothing. -/
theorem c6DeleteRequiresAdminWitness :
    operatorSession.role ≠ "ADMIN" ∧
    caDELETE (some operatorSession) "ca-1" fixtureDb = (401, fixtureDb) :=
  ⟨by decide, c6DeleteRequiresAdmin operatorSession "ca-1" fixtureDb (by decide)⟩

/-- Modelled from the spec: `RevocationManager.generateCRL` (§4.3), whose
implementation is not under src/.  It collects the CertificateRevocation
rows of the CA's certificates, increments `CAConfig.crlNumber`, persists
the CRL row and writes `AuditLog(CRL_GENERATED)` as one atomic unit; an
unknown CA is an error with no write.  Clock-dependent parts (thisUpdate,
nextUpdate, expiry supersession) are outside this state model. -/
def generateCRLService (user : UserRef) (caId : String) (db : DbState) :
    Except String String × DbState :=
  match db.cas.find? (fun c => c.id == caId) with
  | none => (.error "CA not found", db)
  | some ca =>
    let caCerts := db.certificates.filter (fun c => c.caId == caId)
    let entries := db.revocations.filterMap (fun r =>
      match caCerts.find? (fun c => c.id == r.certificateId) with
      | some c => some ({ serialNumber := c.serialNumber, reason := r.reason } : CRLEntry)
      | none => none)
    let newNumber := ca.crlNumber + 1
    (.ok ("crl-" ++ caId ++ "-" ++ toString newNumber),
      { db with
        cas := db.cas.map (fun c =>
          if c.id == caId then { c with crlNumber := newNumber } else c),
        crls := db.crls ++ [{ caId := caId, number := newNumber, entries := entries }],
        auditLogs := db.auditLogs ++
          [{ action := "CRL_GENERATED", description := "CRL generated for CA " ++ caId,
             userId := user.id, username := user.username }] })

/-- One mutating operation of the system, as exercised against the store. -/
inductive Operation where
  | opRevoke (user : UserRef) (certificateId reason : String)
  | opIssue (user : UserRef) (caId : String) (req : IssueRequest) (sanValid : String → Bool)
  | opGenerateCRL (user : UserRef) (caId : String)
  | opDeleteCA (session : Option Session) (caId : String)

/-- The store after one operation. -/
def applyOp (op : Operation) (db : DbState) : DbState :=
  match op with
  | .opRevoke user certificateId reason => (revoke user certificateId reason db).2
  | .opIssue user caId req sanValid => (issue user caId req sanValid db).2
  | .opGenerateCRL user caId => (generateCRLService user caId db).2
  | .opDeleteCA session caId => (caDELETE session caId db).2

/-- The store after a sequence of operations. -/
def applyOps (ops : List Operation) (db : DbState) : DbState :=
  ops.foldl (fun d op => applyOp op d) db

/-- An operation that can delete Certificate rows of the CA `caId`: a CA
deletion request by an authenticated ADMIN naming that CA. -/
def deletesCertsOf (caId : String) (op : Operation) : Prop :=
  match op with
  | .opDeleteCA (some s) target => s.role = "ADMIN" ∧ target = caId
  | _ => False

/-- An ADMIN session for the deletion counterexample. -/
def adminSession : Session :=
  { userId := "user-0", username := "root", role := "ADMIN",
    permissions := ["ca:delete"] }

/-- Claim C3, counterexample: the CA `[id]` DELETE handler deletes
Certificate rows — after an ADMIN deletes `ca-1`, the certificate row that
existed before the operation is gone from the store. -/
theorem c3Counterexample :
    fixtureCert ∈ fixtureDb.certificates ∧
    fixtureCert ∉ (applyOp (.opDeleteCA (some adminSession) "ca-1") fixtureDb).certificates := by
  constructor
  · decide
  · decide

/-- A revocation either leaves the Certificate rows unchanged or rewrites
their status in place. -/
theorem revoke_certificates (user : UserRef) (certificateId reason : String) (db : DbState) :
    (revoke user certificateId reason db).2.certificates = db.certificates ∨
    (revoke user certificateId reason db).2.certificates =
      db.certificates.map (fun c =>
        if c.id == certificateId then { c with status := "REVOKED" } else c) := by
  unfold revoke
  split
  · split
    · exact .inl rfl
    · split
      · exact .inl rfl
      · exact .inr rfl
  · exact .inl rfl

/-- An issuance either leaves the Certificate rows unchanged or appends one
new row. -/
theorem issue_certificates (user : UserRef) (caId : String) (req : IssueRequest)
    (sanValid : String → Bool) (db : DbState) :
    (issue user caId req sanValid db).2.certificates = db.certificates ∨
    ∃ newCert, (issue user caId req sanValid db).2.certificates =
      db.certificates ++ [newCert] := by
  unfold issue
  repeat' split
  all_goals first
    | exact .inl rfl
    | exact .inr ⟨_, rfl⟩

/-- CRL generation never touches the Certificate rows. -/
theorem generateCRLService_certificates (user : UserRef) (caId : String) (db : DbState) :
    (generateCRLService user caId db).2.certificates = db.certificates := by
  unfold generateCRLService
  split <;> rfl

/-- A CA deletion request either leaves the Certificate rows unchanged, or —
only for an authenticated ADMIN — drops exactly the rows of the named CA. -/
theorem caDELETE_certificates (session : Option Session) (caId : String) (db : DbState) :
    (caDELETE session caId db).2.certificates = db.certificates ∨
    ((∃ s, session = some s ∧ s.role = "ADMIN") ∧
     (caDELETE session caId db).2.certificates =
       db.certificates.filter (fun c => !(c.caId == caId))) := by
  cases session with
  | none => exact .inl rfl
  | some s =>
    simp only [caDELETE]
    by_cases hrole : s.role = "ADMIN"
    · rw [if_neg (not_not_intro hrole)]
      split
      · exact .inl rfl
      · split
        · exact .inl rfl
        · exact .inr ⟨⟨s, rfl, hrole⟩, rfl⟩
    · rw [if_pos hrole]
      exact .inl rfl

/-- Every Certificate row (identified by its id, which no modelled operation
rewrites) survives one operation unless that operation is an ADMIN CA
deletion naming the row's CA. -/
theorem cert_survives_op (op : Operation) (db : DbState) (i a : String)
    (h : ∃ c ∈ db.certificates, c.id = i ∧ c.caId = a) :
    (∃ c ∈ (applyOp op db).certificates, c.id = i ∧ c.caId = a) ∨ deletesCertsOf a op := by
  obtain ⟨c, hc, hid, hca⟩ := h
  cases op with
  | opRevoke user certificateId reason =>
    left
    simp only [applyOp]
    rcases revoke_certificates user certificateId reason db with heq | heq
    · rw [heq]; exact ⟨c, hc, hid, hca⟩
    · rw [heq]
      have hmid : (if (c.id == certificateId) = true
          then ({ c with status := "REVOKED" } : Certificate) else c).id = c.id := by
        split <;> rfl
      have hmca : (if (c.id == certificateId) = true
          then ({ c with status := "REVOKED" } : Certificate) else c).caId = c.caId := by
        split <;> rfl
      exact ⟨_, List.mem_map_of_mem _ hc, hmid.trans hid, hmca.trans hca⟩
  | opIssue user caId req sanValid =>
    left
    simp only [applyOp]
    rcases issue_certificates user caId req sanValid db with heq | ⟨newCert, heq⟩
    · rw [heq]; exact ⟨c, hc, hid, hca⟩
    · rw [heq]; exact ⟨c, List.mem_append_left _ hc, hid, hca⟩
  | opGenerateCRL user caId =>
    left
    simp only [applyOp]
    rw [generateCRLService_certificates]
    exact ⟨c, hc, hid, hca⟩
  | opDeleteCA session caId =>
    rcases caDELETE_certificates session caId db with heq | ⟨⟨s, hsess, hrole⟩, heq⟩
    · left
      simp only [applyOp]
      rw [heq]
      exact ⟨c, hc, hid, hca⟩
    · by_cases htarget : caId = a
      · right
        subst hsess
        exact ⟨hrole, htarget⟩
      · left
        simp only [applyOp]
        rw [heq]
        refine ⟨c, List.mem_filter.mpr ⟨hc, ?_⟩, hid, hca⟩
        simp only [hca, Bool.not_eq_eq_eq_not, Bool.not_true, beq_eq_false_iff_ne, ne_eq]
        exact fun hEq => htarget hEq.symm

/-- Claim C3 (amended): for every sequence of operations, every Certificate
row present in the store beforehand is still present afterwards — with at
most its mutable attributes (status) changed, its id and owning CA intact —
unless the sequence contains an ADMIN CA-deletion request naming the row's
CA, the one operation that deletes Certificate rows. -/
theorem c3CertsNeverDeleted (ops : List Operation) (db : DbState) (cert : Certificate)
    (h : cert ∈ db.certificates) :
    (∃ c ∈ (applyOps ops db).certificates, c.id = cert.id ∧ c.caId = cert.caId) ∨
      ∃ op ∈ ops, deletesCertsOf cert.caId op := by
  suffices hgen : ∀ (ops : List Operation) (db : DbState),
      (∃ c ∈ db.certificates, c.id = cert.id ∧ c.caId = cert.caId) →
      (∃ c ∈ (applyOps ops db).certificates, c.id = cert.id ∧ c.caId = cert.caId) ∨
        ∃ op ∈ ops, deletesCertsOf cert.caId op by
    exact hgen ops db ⟨cert, h, rfl, rfl⟩
  intro ops
  induction ops with
  | nil => intro db hdb; exact .inl hdb
  | cons op rest ih =>
    intro db hdb
    cases cert_survives_op op db cert.id cert.caId hdb with
    | inl hnext =>
      cases ih (applyOp op db) hnext with
      | inl hfinal => exact .inl hfinal
      | inr hdel => exact .inr (by obtain ⟨o, ho, hd⟩ := hdel; exact ⟨o, by simp [ho], hd⟩)
    | inr hdel => exact .inr ⟨op, by simp, hdel⟩

/-- Claim C3, witness for the amended theorem: the empty operation sequence
trivially preserves the concrete certificate row. -/
theorem c3CertsNeverDeletedWitness :
    fixtureCert ∈ fixtureDb.certificates ∧
    ((∃ c ∈ (applyOps [] fixtureDb).certificates,
        c.id = fixtureCert.id ∧ c.caId = fixtureCert.caId) ∨
      ∃ op ∈ ([] : List Operation), deletesCertsOf fixtureCert.caId op) :=
  ⟨by decide, c3CertsNeverDeleted [] fixtureDb fixtureCert (by decide)⟩
